import Mathlib

/-
  Verification development for the Voice-Tool repository
  (src/voice-service: server.py, providers.py, config.py).

  The Python code is shallowly embedded: pure computations become Lean
  functions; network interaction is modelled by oracles (the responses the
  code would receive) and by returning the list of requests the code issues;
  exceptions become `Except`.  Python truthiness on optional strings, strings
  and lists is made explicit.  Float-valued TTS parameters are only stored and
  forwarded by the code under verification, never computed with, so they are
  carried as `Rat` stand-ins.
-/

set_option maxRecDepth 4000
set_option linter.unusedVariables false

/-- Python truthiness of an `Optional[str]`: `None` and `""` are falsy. -/
def pyTruthyOptStr : Option String → Bool
  | none => false
  | some s => s ≠ ""

/-- Python `x or d` for an `Optional[str]` `x` and a `str` default `d`. -/
def pyOrStr (x : Option String) (d : String) : String :=
  match x with
  | none => d
  | some s => if s = "" then d else s

/-- First-match lookup in an association list, mirroring Python `dict.get`. -/
def alistGet {α : Type} : List (String × α) → String → Option α
  | [], _ => none
  | (k, v) :: rest, key => if k = key then some v else alistGet rest key

/-- In-place update of an association list, mirroring assignment into a
    Python dict (insertion order preserved, missing keys appended). -/
def alistSet {α : Type} : List (String × α) → String → α → List (String × α)
  | [], key, v => [(key, v)]
  | (k, w) :: rest, key, v =>
      if k = key then (key, v) :: rest else (k, w) :: alistSet rest key v

-- ======================= RunPod STT / TTS gateways =======================

/-- The value found under `"output"` in a RunPod response body: the code
    probes it with `.get` when it is a dict and stringifies it otherwise
    (string-valued dict entries suffice for the fields the code reads). -/
inductive RpOutput : Type
  | dict (entries : List (String × String))
  | str (s : String)
deriving DecidableEq

/-- The JSON body of a RunPod response, restricted to the keys the code
    reads: `status`, `id` and `output`. -/
structure RpBody where
  status : Option String
  id : Option String
  output : Option RpOutput
deriving DecidableEq

/-- An HTTP response as the code sees it: status code, raw text (used in
    error details) and parsed JSON body. -/
structure HttpResp where
  status_code : Nat
  text : String
  body : RpBody
deriving DecidableEq

/-- The network oracle for one gateway call: the response to the initial
    `runsync` POST and the body of the i-th `status` GET. -/
structure RunpodNet where
  initial : HttpResp
  poll : Nat → RpBody

/-- `HTTPException(status_code, detail)`, the only exception type raised by
    `transcribe_audio` and `synthesize_speech`. -/
inductive GatewayError : Type
  | http (status_code : Nat) (detail : String)
deriving DecidableEq

/-- The Faster-Whisper `input` payload built by `transcribe_audio`
    (server.py lines 142-151); `language = none` means the key is absent. -/
structure WhisperInput where
  audio_base64 : String
  model : String
  transcription : String
  word_timestamps : Bool
  language : Option String
deriving DecidableEq

/-- Payload construction of `transcribe_audio`: the `language` key is added
    only when the argument is truthy (`if language:`). -/
def buildWhisperInput (audio_b64 : String) (language : Option String)
    (model : String) (transcription_format : String)
    (word_timestamps : Bool) : WhisperInput :=
  { audio_base64 := audio_b64
    model := model
    transcription := transcription_format
    word_timestamps := word_timestamps
    language := if pyTruthyOptStr language then language else none }

/-- The Chatterbox `input` payload built by `synthesize_speech`
    (server.py lines 216-225); `audio_prompt_base64 = none` means absent. -/
structure ChatterboxInput where
  text : String
  exaggeration : Rat
  temperature : Rat
  cfg_weight : Rat
  audio_prompt_base64 : Option String
deriving DecidableEq

/-- Payload construction of `synthesize_speech`: the voice-cloning key is
    added only when the argument is truthy (`if audio_prompt_base64:`). -/
def buildChatterboxInput (text : String) (exaggeration temperature cfg_weight : Rat)
    (audio_prompt_base64 : Option String) : ChatterboxInput :=
  { text := text
    exaggeration := exaggeration
    temperature := temperature
    cfg_weight := cfg_weight
    audio_prompt_base64 :=
      if pyTruthyOptStr audio_prompt_base64 then audio_prompt_base64 else none }

/-- A network request issued by `transcribe_audio`. -/
inductive SttRequest : Type
  | runsync (endpoint_id : String) (api_key : String) (input : WhisperInput)
  | status (endpoint_id : String) (api_key : String) (job_id : String)
deriving DecidableEq

/-- A network request issued by `synthesize_speech`. -/
inductive TtsRequest : Type
  | runsync (endpoint_id : String) (api_key : String) (input : ChatterboxInput)
  | status (endpoint_id : String) (api_key : String) (job_id : String)
deriving DecidableEq

/-- The polling loop shared by both gateways (`for _ in range(60)`):
    a `COMPLETED` body replaces `result` and breaks, a `FAILED` body raises
    `HTTPException(500, failDetail)`, anything else keeps polling; when the
    range is exhausted the loop simply ends with `result` unchanged.
    Returns the outcome together with the number of status GETs performed. -/
def pollRunpod (poll : Nat → RpBody) (failDetail : String) :
    Nat → Nat → RpBody → Except GatewayError RpBody × Nat
  | 0, i, result => (Except.ok result, i)
  | Nat.succ n, i, result =>
      let status_data := poll i
      if status_data.status = some "COMPLETED" then (Except.ok status_data, i + 1)
      else if status_data.status = some "FAILED" then
        (Except.error (GatewayError.http 500 failDetail), i + 1)
      else pollRunpod poll failDetail n (i + 1) result

/-- Extraction of the transcription from a result body (server.py 181-184):
    `output.get("text", output.get("transcription", ""))` for a dict,
    `str(output)` otherwise, with `result.get("output", {})` defaulting to
    an empty dict. -/
def extractSttOutput (body : RpBody) : String :=
  match body.output with
  | none => ""
  | some (RpOutput.dict entries) =>
      (alistGet entries "text").getD ((alistGet entries "transcription").getD "")
  | some (RpOutput.str s) => s

/-- Extraction of the base64 audio from a result body (server.py 254-258):
    `output.get("audio_base64", output.get("audio", ""))` for a dict,
    `str(output)` otherwise. -/
def extractTtsOutput (body : RpBody) : String :=
  match body.output with
  | none => ""
  | some (RpOutput.dict entries) =>
      (alistGet entries "audio_base64").getD ((alistGet entries "audio").getD "")
  | some (RpOutput.str s) => s

/-- STT endpoint configuration (config.py `STTConfig`). -/
structure STTConfig where
  endpoint_id : String
  api_key : String
deriving DecidableEq

/-- TTS endpoint configuration (config.py `TTSConfig`). -/
structure TTSConfig where
  endpoint_id : String
  api_key : String
deriving DecidableEq

/-- `transcribe_audio` (server.py 111-184).  The audio is taken already
    base64-encoded (the code encodes the raw bytes first).  Returns the
    transcription or the raised `HTTPException`, together with the list of
    network requests issued. -/
def transcribe_audio (cfg : STTConfig) (net : RunpodNet) (audio_b64 : String)
    (language : Option String) (model : String)
    (transcription_format : String) (word_timestamps : Bool) :
    Except GatewayError String × List SttRequest :=
  if cfg.endpoint_id = "" ∨ cfg.api_key = "" then
    (Except.error (GatewayError.http 400 "STT not configured"), [])
  else
    let input := buildWhisperInput audio_b64 language model transcription_format word_timestamps
    let req0 := SttRequest.runsync cfg.endpoint_id cfg.api_key input
    let resp := net.initial
    if resp.status_code ≠ 200 then
      (Except.error (GatewayError.http resp.status_code ("STT error: " ++ resp.text)), [req0])
    else
      let result := resp.body
      if result.status = some "IN_QUEUE" ∨ result.status = some "IN_PROGRESS" then
        let job_id := result.id.getD "None"
        match pollRunpod net.poll "STT job failed" 60 0 result with
        | (outcome, n) =>
          let reqs := req0 :: (List.range n).map
            (fun _ => SttRequest.status cfg.endpoint_id cfg.api_key job_id)
          match outcome with
          | Except.error e => (Except.error e, reqs)
          | Except.ok body => (Except.ok (extractSttOutput body), reqs)
      else
        (Except.ok (extractSttOutput result), [req0])

/-- `synthesize_speech` (server.py 189-260).  Returns the base64 audio
    payload extracted from the result (the caller-side `base64.b64decode`
    is a pure post-processing step not modelled here) or the raised
    `HTTPException`, together with the list of network requests issued. -/
def synthesize_speech (cfg : TTSConfig) (net : RunpodNet) (text : String)
    (exaggeration temperature cfg_weight : Rat)
    (audio_prompt_base64 : Option String) :
    Except GatewayError String × List TtsRequest :=
  if cfg.endpoint_id = "" ∨ cfg.api_key = "" then
    (Except.error (GatewayError.http 400 "TTS not configured"), [])
  else
    let input := buildChatterboxInput text exaggeration temperature cfg_weight audio_prompt_base64
    let req0 := TtsRequest.runsync cfg.endpoint_id cfg.api_key input
    let resp := net.initial
    if resp.status_code ≠ 200 then
      (Except.error (GatewayError.http resp.status_code ("TTS error: " ++ resp.text)), [req0])
    else
      let result := resp.body
      if result.status = some "IN_QUEUE" ∨ result.status = some "IN_PROGRESS" then
        let job_id := result.id.getD "None"
        match pollRunpod net.poll "TTS job failed" 60 0 result with
        | (outcome, n) =>
          let reqs := req0 :: (List.range n).map
            (fun _ => TtsRequest.status cfg.endpoint_id cfg.api_key job_id)
          match outcome with
          | Except.error e => (Except.error e, reqs)
          | Except.ok body => (Except.ok (extractTtsOutput body), reqs)
      else
        (Except.ok (extractTtsOutput result), [req0])

/-- A RunPod body whose status is neither terminal state. -/
def nonTerminal (b : RpBody) : Prop :=
  b.status ≠ some "COMPLETED" ∧ b.status ≠ some "FAILED"

theorem pollRunpod_exhausted (poll : Nat → RpBody) (d : String) :
    ∀ (fuel i : Nat) (result : RpBody),
      (∀ j, j < fuel → nonTerminal (poll (i + j))) →
      pollRunpod poll d fuel i result = (Except.ok result, i + fuel) := by
  intro fuel
  induction fuel with
  | zero =>
      intro i result _
      simp [pollRunpod]
  | succ n ih =>
      intro i result h
      have h0 : nonTerminal (poll i) := by
        have := h 0 (Nat.succ_pos n)
        simpa using this
      have hrest : ∀ j, j < n → nonTerminal (poll (i + 1 + j)) := by
        intro j hj
        have := h (j + 1) (Nat.succ_lt_succ hj)
        have harith : i + (j + 1) = i + 1 + j := by omega
        rwa [harith] at this
      have harith2 : i + 1 + n = i + (n + 1) := by omega
      simp only [pollRunpod]
      rw [if_neg h0.1, if_neg h0.2, ih (i + 1) result hrest, harith2]

/-- A configured STT endpoint used in concrete runs. -/
def sttCfgC : STTConfig := { endpoint_id := "ep-stt", api_key := "key-stt" }

/-- A configured TTS endpoint used in concrete runs. -/
def ttsCfgC : TTSConfig := { endpoint_id := "ep-tts", api_key := "key-tts" }

/-- Initial response queued, every status poll still in progress. -/
def stalledNet : RunpodNet :=
  { initial :=
      { status_code := 200
        text := ""
        body := { status := some "IN_QUEUE", id := some "job-1", output := none } }
    poll := fun _ => { status := some "IN_PROGRESS", id := some "job-1", output := none } }

/-- Initial response already COMPLETED with an audio payload. -/
def completedTtsNet : RunpodNet :=
  { initial :=
      { status_code := 200
        text := ""
        body :=
          { status := some "COMPLETED"
            id := some "job-2"
            output := some (RpOutput.dict [("audio_base64", "QUJD")]) } }
    poll := fun _ => { status := some "COMPLETED", id := some "job-2", output := none } }

/-- C2 counterexample: with a 200 `IN_QUEUE` submission response and sixty
    `IN_PROGRESS` polls, neither gateway raises a `TimeoutError` (or any
    error); both return successfully with the output extracted from the
    original non-terminal response, which is empty. -/
theorem C2_counterexample :
    (transcribe_audio sttCfgC stalledNet "QUJD" none "turbo" "plain_text" false).1 =
      Except.ok ""
    ∧ (synthesize_speech ttsCfgC stalledNet "hello" (1/2) (4/5) (1/2) none).1 =
      Except.ok "" := by
  constructor
  · rfl
  · rfl

/-- C2 amended: when the submission response is 200 with a non-terminal
    status and all sixty polls stay non-terminal, the poll ceiling is
    respected (exactly one POST plus sixty status GETs) but no error is
    raised: both gateways return `Except.ok` of the output extracted from
    the original non-terminal submission response. -/
theorem C2_amended (scfg : STTConfig) (tcfg : TTSConfig) (net : RunpodNet)
    (audio_b64 lang_s text : String) (mdl fmt : String) (wts : Bool)
    (ex tp cw : Rat) (prompt : Option String)
    (hs1 : scfg.endpoint_id ≠ "") (hs2 : scfg.api_key ≠ "")
    (ht1 : tcfg.endpoint_id ≠ "") (ht2 : tcfg.api_key ≠ "")
    (hcode : net.initial.status_code = 200)
    (hq : net.initial.body.status = some "IN_QUEUE" ∨
          net.initial.body.status = some "IN_PROGRESS")
    (hpoll : ∀ j, j < 60 → nonTerminal (net.poll j)) :
    (transcribe_audio scfg net audio_b64 (some lang_s) mdl fmt wts).1 =
      Except.ok (extractSttOutput net.initial.body)
    ∧ (transcribe_audio scfg net audio_b64 (some lang_s) mdl fmt wts).2.length = 61
    ∧ (synthesize_speech tcfg net text ex tp cw prompt).1 =
      Except.ok (extractTtsOutput net.initial.body)
    ∧ (synthesize_speech tcfg net text ex tp cw prompt).2.length = 61 := by
  have hpoll0 : ∀ j, j < 60 → nonTerminal (net.poll (0 + j)) := by
    intro j hj
    simpa using hpoll j hj
  have hstt :
      pollRunpod net.poll "STT job failed" 60 0 net.initial.body =
        (Except.ok net.initial.body, 60) :=
    pollRunpod_exhausted net.poll "STT job failed" 60 0 net.initial.body hpoll0
  have htts :
      pollRunpod net.poll "TTS job failed" 60 0 net.initial.body =
        (Except.ok net.initial.body, 60) :=
    pollRunpod_exhausted net.poll "TTS job failed" 60 0 net.initial.body hpoll0
  refine ⟨?_, ?_, ?_, ?_⟩ <;>
    simp [transcribe_audio, synthesize_speech, hs1, hs2, ht1, ht2, hcode, hq,
      hstt, htts]

/-- Witness for `C2_amended` at a concrete configuration and network. -/
theorem C2_amended_witness :
    (transcribe_audio sttCfgC stalledNet "QUJD" (some "en") "turbo" "plain_text" false).1 =
      Except.ok (extractSttOutput stalledNet.initial.body)
    ∧ (transcribe_audio sttCfgC stalledNet "QUJD" (some "en") "turbo" "plain_text" false).2.length = 61
    ∧ (synthesize_speech ttsCfgC stalledNet "hello" (1/2) (4/5) (1/2) none).1 =
      Except.ok (extractTtsOutput stalledNet.initial.body)
    ∧ (synthesize_speech ttsCfgC stalledNet "hello" (1/2) (4/5) (1/2) none).2.length = 61 :=
  C2_amended sttCfgC ttsCfgC stalledNet "QUJD" "en" "hello" "turbo" "plain_text" false
    (1/2) (4/5) (1/2) none
    (by decide) (by decide) (by decide) (by decide) (by decide)
    (Or.inl (by decide)) (fun _ _ => by constructor <;> simp [stalledNet, nonTerminal])

/-- C3 counterexample: with TTS endpoint and key configured, synthesizing
    the empty text issues one HTTP request (the `runsync` POST whose payload
    carries `text = ""`) instead of the claimed zero, and the call succeeds
    with the upstream payload rather than failing with a ValidationError. -/
theorem C3_counterexample :
    (synthesize_speech ttsCfgC completedTtsNet "" (1/2) (4/5) (1/2) none).2 =
      [TtsRequest.runsync "ep-tts" "key-tts" (buildChatterboxInput "" (1/2) (4/5) (1/2) none)]
    ∧ (synthesize_speech ttsCfgC completedTtsNet "" (1/2) (4/5) (1/2) none).1 =
      Except.ok "QUJD" := by
  constructor
  · rfl
  · rfl

/-- C3 amended: `synthesize_speech` has no empty-text guard.  Whenever the
    TTS endpoint and key are configured, the call with empty text reaches
    the network: its first request is the `runsync` POST whose payload
    carries `text = ""`.  The only local pre-network check is the
    configuration guard. -/
theorem C3_amended (cfg : TTSConfig) (net : RunpodNet) (ex tp cw : Rat)
    (prompt : Option String) (h1 : cfg.endpoint_id ≠ "") (h2 : cfg.api_key ≠ "") :
    (synthesize_speech cfg net "" ex tp cw prompt).2.head? =
      some (TtsRequest.runsync cfg.endpoint_id cfg.api_key
        (buildChatterboxInput "" ex tp cw prompt)) := by
  by_cases hc : net.initial.status_code = 200
  · by_cases hq : net.initial.body.status = some "IN_QUEUE" ∨
        net.initial.body.status = some "IN_PROGRESS"
    · rcases hph : pollRunpod net.poll "TTS job failed" 60 0 net.initial.body with ⟨outcome, n⟩
      cases outcome <;> simp [synthesize_speech, h1, h2, hc, hq, hph]
    · simp [synthesize_speech, h1, h2, hc, hq]
  · simp [synthesize_speech, h1, h2, hc]

/-- Witness for `C3_amended` at a concrete configuration and network. -/
theorem C3_amended_witness :
    (synthesize_speech ttsCfgC completedTtsNet "" (1/2) (4/5) (1/2) none).2.head? =
      some (TtsRequest.runsync ttsCfgC.endpoint_id ttsCfgC.api_key
        (buildChatterboxInput "" (1/2) (4/5) (1/2) none)) :=
  C3_amended ttsCfgC completedTtsNet (1/2) (4/5) (1/2) none (by decide) (by decide)

/-- C10: an empty-string `language` (transcription) and an empty-string
    `audio_prompt_base64` (synthesis) are falsy, so the corresponding key is
    omitted from the submitted payload exactly as for an absent value, and
    the whole gateway call behaves identically to the absent case. -/
theorem C10_empty_string_like_absent :
    ∀ (cfg : STTConfig) (tcfg : TTSConfig) (net : RunpodNet)
      (audio_b64 mdl fmt text : String) (wts : Bool) (ex tp cw : Rat),
      (buildWhisperInput audio_b64 (some "") mdl fmt wts).language = none
      ∧ buildWhisperInput audio_b64 (some "") mdl fmt wts =
          buildWhisperInput audio_b64 none mdl fmt wts
      ∧ (buildChatterboxInput text ex tp cw (some "")).audio_prompt_base64 = none
      ∧ buildChatterboxInput text ex tp cw (some "") =
          buildChatterboxInput text ex tp cw none
      ∧ transcribe_audio cfg net audio_b64 (some "") mdl fmt wts =
          transcribe_audio cfg net audio_b64 none mdl fmt wts
      ∧ synthesize_speech tcfg net text ex tp cw (some "") =
          synthesize_speech tcfg net text ex tp cw none := by
  intros
  exact ⟨rfl, rfl, rfl, rfl, rfl, rfl⟩

-- ============================ LLM router ============================

/-- A chat message (`{"role": ..., "content": ...}`). -/
structure ChatMessage where
  role : String
  content : String
deriving DecidableEq

/-- One LLM provider entry (config.py `LLMProvider`). -/
structure LLMProvider where
  api_key : String
  base_url : String
  models : List String
deriving DecidableEq

/-- The LLM section of the configuration (config.py `LLMConfig`); the
    provider dict is an insertion-ordered association list. -/
structure LLMConfig where
  active_provider : String
  active_model : String
  providers : List (String × LLMProvider)
deriving DecidableEq

/-- The whole configuration (config.py `Config`). -/
structure Config where
  stt : STTConfig
  tts : TTSConfig
  llm : LLMConfig
deriving DecidableEq

/-- The exceptions `LLMRouter.chat` can raise before any network activity:
    `ValueError(f"Unknown provider: {provider}")`. -/
inductive RouterError : Type
  | valueError (msg : String)
deriving DecidableEq

/-- The HTTP request dispatched by `LLMRouter.chat`, by adapter shape. -/
inductive LLMChatRequest : Type
  | openaiCompat (url : String) (authorization : Option String)
      (extraHeaders : List (String × String)) (model : String)
      (messages : List ChatMessage)
  | ollama (url : String) (model : String) (messages : List ChatMessage)
  | anthropic (url : String) (x_api_key : String) (system : Option String)
      (model : String) (messages : List ChatMessage)
deriving DecidableEq

/-- The message-format conversion of `_chat_anthropic` (providers.py
    121-128): a left-to-right loop that remembers the content of the last
    system message seen and appends every other message to a fresh list. -/
def anthropicSplit (messages : List ChatMessage) : String × List ChatMessage :=
  messages.foldl
    (fun acc msg =>
      if msg.role = "system" then (msg.content, acc.2)
      else (acc.1, acc.2 ++ [msg]))
    ("", [])

/-- `LLMRouter.chat` (providers.py 18-40) up to the point where the HTTP
    request is issued: resolves provider and model (Python `or` fallback to
    the active ones), raises `ValueError` when the provider is not in the
    registry, and otherwise builds the request of the matching adapter
    (`_chat_ollama`, `_chat_anthropic`, or `_chat_openai_compatible` as the
    default shape, including the OpenRouter-only extra headers and the
    Authorization header only when an api key is present). -/
def LLMRouter.chat_dispatch (cfg : Config) (messages : List ChatMessage)
    (provider? model? : Option String) : Except RouterError LLMChatRequest :=
  let provider := pyOrStr provider? cfg.llm.active_provider
  let model := pyOrStr model? cfg.llm.active_model
  match alistGet cfg.llm.providers provider with
  | none => Except.error (RouterError.valueError ("Unknown provider: " ++ provider))
  | some pc =>
      if provider = "ollama" then
        Except.ok (LLMChatRequest.ollama (pc.base_url ++ "/api/chat") model messages)
      else if provider = "anthropic" then
        let conv := anthropicSplit messages
        Except.ok (LLMChatRequest.anthropic (pc.base_url ++ "/messages") pc.api_key
          (if conv.1 ≠ "" then some conv.1 else none) model conv.2)
      else
        Except.ok (LLMChatRequest.openaiCompat (pc.base_url ++ "/chat/completions")
          (if pc.api_key ≠ "" then some ("Bearer " ++ pc.api_key) else none)
          (if provider = "openrouter" then
            [("HTTP-Referer", "https://voice-service.local"), ("X-Title", "Voice Service")]
          else [])
          model messages)

/-- The caller's message list as left behind by `LLMRouter.chat`: the
    statement-by-statement translation contains no mutating operation on it
    (`_chat_anthropic` only reads it while appending to a fresh local list),
    so the state-passing embedding returns it unchanged. -/
def LLMRouter.chat_callerMessages (cfg : Config) (messages : List ChatMessage)
    (provider? model? : Option String) : List ChatMessage :=
  messages

/-- Response handling of `_chat_openai_compatible` (providers.py 76-80):
    non-200 raises, otherwise the result is
    `choices[0].message.content` (an empty `choices` would be a Python
    IndexError, modelled as `none`). -/
def openaiCompatibleExtract (status_code : Nat) (choices : List String) :
    Option String :=
  if status_code ≠ 200 then none
  else choices.head?

/-- Helper: the accumulated list of `anthropicSplit` extends any starting
    accumulator by the non-system messages in order. -/
theorem anthropicSplit_foldl_acc (messages : List ChatMessage) :
    ∀ (s : String) (acc : List ChatMessage),
      (messages.foldl
        (fun acc msg =>
          if msg.role = "system" then (msg.content, acc.2)
          else (acc.1, acc.2 ++ [msg]))
        (s, acc)).2 =
        acc ++ messages.filter (fun m => m.role ≠ "system") := by
  induction messages with
  | nil => intro s acc; simp
  | cons m rest ih =>
      intro s acc
      by_cases hm : m.role = "system"
      · simp [List.foldl_cons, hm, ih]
      · simp [List.foldl_cons, hm, ih]

/-- A registry with three providers, used to instantiate router theorems. -/
def cfgRouterW : Config :=
  { stt := sttCfgC
    tts := ttsCfgC
    llm :=
      { active_provider := "openrouter"
        active_model := "m0"
        providers :=
          [("openrouter",
            { api_key := "k1", base_url := "https://openrouter.ai/api/v1", models := [] }),
           ("anthropic",
            { api_key := "k2", base_url := "https://api.anthropic.com/v1", models := [] }),
           ("groq",
            { api_key := "", base_url := "https://api.groq.com/openai/v1", models := [] })] } }

/-- C4: when the resolved provider name is not in the registry,
    `LLMRouter.chat` raises `ValueError(f"Unknown provider: {provider}")`
    before any request is built — it never falls back to a different,
    configured provider. -/
theorem C4_unknown_provider_raises (cfg : Config) (messages : List ChatMessage)
    (provider? model? : Option String)
    (hnone : alistGet cfg.llm.providers (pyOrStr provider? cfg.llm.active_provider) = none) :
    LLMRouter.chat_dispatch cfg messages provider? model? =
      Except.error (RouterError.valueError
        ("Unknown provider: " ++ pyOrStr provider? cfg.llm.active_provider)) := by
  simp [LLMRouter.chat_dispatch, hnone]

/-- Witness for `C4_unknown_provider_raises` at a concrete registry. -/
theorem C4_unknown_provider_raises_witness :
    LLMRouter.chat_dispatch cfgRouterW [] (some "mistral-cloud") none =
      Except.error (RouterError.valueError
        ("Unknown provider: " ++ pyOrStr (some "mistral-cloud") cfgRouterW.llm.active_provider)) :=
  C4_unknown_provider_raises cfgRouterW [] (some "mistral-cloud") none (by rfl)

/-- C6: `LLMRouter.chat` never mutates the caller's message list (the
    state-passing embedding returns it unchanged for every provider), and
    the Anthropic adapter derives its payload from a fresh list: its
    `messages` field is the non-system messages in their original order
    (system content hoisted into the separate `system` field), while the
    caller's list still holds every message. -/
theorem C6_messages_not_mutated (cfg : Config) (messages : List ChatMessage)
    (provider? model? : Option String) :
    LLMRouter.chat_callerMessages cfg messages provider? model? = messages
    ∧ (anthropicSplit messages).2 = messages.filter (fun m => m.role ≠ "system")
    ∧ (∀ pc : LLMProvider,
        alistGet cfg.llm.providers "anthropic" = some pc →
        LLMRouter.chat_dispatch cfg messages (some "anthropic") model? =
          Except.ok (LLMChatRequest.anthropic (pc.base_url ++ "/messages") pc.api_key
            (if (anthropicSplit messages).1 ≠ "" then some (anthropicSplit messages).1
             else none)
            (pyOrStr model? cfg.llm.active_model)
            (messages.filter (fun m => m.role ≠ "system")))) := by
  have hsplit : (anthropicSplit messages).2 =
      messages.filter (fun m => m.role ≠ "system") := by
    simpa [anthropicSplit] using anthropicSplit_foldl_acc messages "" []
  refine ⟨rfl, hsplit, ?_⟩
  intro pc hpc
  simp [LLMRouter.chat_dispatch, pyOrStr, hpc, hsplit]

/-- Witness for `C6_messages_not_mutated` at a concrete registry,
    discharging the hypothesis of its Anthropic conjunct. -/
theorem C6_messages_not_mutated_witness :
    LLMRouter.chat_dispatch cfgRouterW
        [⟨"system", "be brief"⟩, ⟨"user", "hi"⟩] (some "anthropic") none =
      Except.ok (LLMChatRequest.anthropic ("https://api.anthropic.com/v1" ++ "/messages") "k2"
        (if (anthropicSplit [⟨"system", "be brief"⟩, ⟨"user", "hi"⟩]).1 ≠ "" then
          some (anthropicSplit [⟨"system", "be brief"⟩, ⟨"user", "hi"⟩]).1
         else none)
        (pyOrStr none cfgRouterW.llm.active_model)
        ([⟨"system", "be brief"⟩, ⟨"user", "hi"⟩].filter (fun m => m.role ≠ "system"))) :=
  (C6_messages_not_mutated cfgRouterW [⟨"system", "be brief"⟩, ⟨"user", "hi"⟩]
    (some "anthropic") none).2.2
    { api_key := "k2", base_url := "https://api.anthropic.com/v1", models := [] }
    (by rfl)

/-- C7: any registry provider other than "ollama" and "anthropic" (custom
    names included) is dispatched with the OpenAI-compatible adapter shape:
    POST to `{base_url}/chat/completions` with the caller's messages, and
    on a 200 response the result is `choices[0].message.content`. -/
theorem C7_default_openai_compatible (cfg : Config) (messages : List ChatMessage)
    (p : String) (model? : Option String) (pc : LLMProvider)
    (hp : p ≠ "") (hlook : alistGet cfg.llm.providers p = some pc)
    (ho : p ≠ "ollama") (ha : p ≠ "anthropic") :
    LLMRouter.chat_dispatch cfg messages (some p) model? =
      Except.ok (LLMChatRequest.openaiCompat (pc.base_url ++ "/chat/completions")
        (if pc.api_key ≠ "" then some ("Bearer " ++ pc.api_key) else none)
        (if p = "openrouter" then
          [("HTTP-Referer", "https://voice-service.local"), ("X-Title", "Voice Service")]
        else [])
        (pyOrStr model? cfg.llm.active_model) messages)
    ∧ ∀ (c : String) (cs : List String),
        openaiCompatibleExtract 200 (c :: cs) = some c := by
  constructor
  · simp [LLMRouter.chat_dispatch, pyOrStr, hp, hlook, ho, ha]
  · intro c cs
    simp [openaiCompatibleExtract]

/-- Witness for `C7_default_openai_compatible` at the custom provider
    "groq" of the concrete registry. -/
theorem C7_default_openai_compatible_witness :
    (LLMRouter.chat_dispatch cfgRouterW [⟨"user", "hi"⟩] (some "groq") none =
      Except.ok (LLMChatRequest.openaiCompat ("https://api.groq.com/openai/v1" ++ "/chat/completions")
        (if ("" : String) ≠ "" then some ("Bearer " ++ "") else none)
        (if ("groq" : String) = "openrouter" then
          [("HTTP-Referer", "https://voice-service.local"), ("X-Title", "Voice Service")]
        else [])
        (pyOrStr none cfgRouterW.llm.active_model) [⟨"user", "hi"⟩])
    ∧ ∀ (c : String) (cs : List String),
        openaiCompatibleExtract 200 (c :: cs) = some c) :=
  C7_default_openai_compatible cfgRouterW [⟨"user", "hi"⟩] "groq" none
    { api_key := "", base_url := "https://api.groq.com/openai/v1", models := [] }
    (by decide) (by rfl) (by decide) (by decide)

-- ===================== WebSocket voice session loop =====================

/-- Per-connection TTS settings (server.py 497-502), updatable via
    `settings` events. -/
structure TtsSettings where
  exaggeration : Rat
  temperature : Rat
  cfg_weight : Rat
  audio_prompt_base64 : Option String
deriving DecidableEq

/-- The initial TTS settings of a connection. -/
def defaultTtsSettings : TtsSettings :=
  { exaggeration := 1/2, temperature := 4/5, cfg_weight := 1/2,
    audio_prompt_base64 := none }

/-- An inbound WebSocket message, by its `type` field (server.py 508-584);
    `other` stands for any message matching none of the handled types. -/
inductive InEvent : Type
  | audio (audio_base64 : String) (language : Option String) (model : Option String)
  | clear
  | settings (exaggeration temperature cfg_weight : Option Rat)
      (audio_prompt_base64 : Option (Option String))
  | text (text : String) (synthesize : Bool)
  | other
deriving DecidableEq

/-- An outbound WebSocket event.  `error` is the event the spec expects on
    gateway failure; it appears here so that its absence from every trace
    can be stated. -/
inductive OutEvent : Type
  | status (message : String)
  | transcription (text : String)
  | response (text : String)
  | audioOut (audio_base64 : String)
  | error (message : String)
deriving DecidableEq

/-- An observable step of the session loop: an event sent over the
    connection, or an append to the conversation history. -/
inductive SessionAction : Type
  | emit (e : OutEvent)
  | appendUser (content : String)
  | appendAssistant (content : String)
deriving DecidableEq

/-- Whether an action is the emission of an `error` event. -/
def SessionAction.isErrorEmit : SessionAction → Bool
  | SessionAction.emit (OutEvent.error _) => true
  | _ => false

/-- The three gateway calls as oracles: each either returns a value or
    raises (`Except.error` carries the exception's message).  `synth`
    returns the base64 audio the handler forwards (the handler's
    decode/encode round-trip on the synthesized bytes is absorbed into the
    oracle). -/
structure Gateways where
  transcribe : String → Option String → String → Except String String
  chat : List ChatMessage → Except String String
  synth : String → TtsSettings → Except String String

/-- How one inbound event is handled by `websocket_voice` (server.py
    508-584): the emitted actions in order, and either the updated state or
    the exception that escapes (there is no handler around the gateway
    calls, so a raised exception aborts the handling). -/
def handleEvent (gw : Gateways) (ev : InEvent) (history : List ChatMessage)
    (settings : TtsSettings) :
    List SessionAction × Except String (List ChatMessage × TtsSettings) :=
  match ev with
  | InEvent.audio audio_base64 language mdl =>
      let a1 := [SessionAction.emit (OutEvent.status "Transcribing...")]
      match gw.transcribe audio_base64 language (mdl.getD "turbo") with
      | Except.error e => (a1, Except.error e)
      | Except.ok user_text =>
          let h2 := history ++ [⟨"user", user_text⟩]
          let a3 := a1 ++ [SessionAction.emit (OutEvent.transcription user_text),
                           SessionAction.appendUser user_text,
                           SessionAction.emit (OutEvent.status "Thinking...")]
          match gw.chat h2 with
          | Except.error e => (a3, Except.error e)
          | Except.ok response_text =>
              let h3 := h2 ++ [⟨"assistant", response_text⟩]
              let a4 := a3 ++ [SessionAction.appendAssistant response_text,
                               SessionAction.emit (OutEvent.response response_text),
                               SessionAction.emit (OutEvent.status "Synthesizing...")]
              match gw.synth response_text settings with
              | Except.error e => (a4, Except.error e)
              | Except.ok audio_out =>
                  (a4 ++ [SessionAction.emit (OutEvent.audioOut audio_out)],
                   Except.ok (h3, settings))
  | InEvent.clear =>
      ([SessionAction.emit (OutEvent.status "Conversation cleared")],
       Except.ok ([], settings))
  | InEvent.settings ex tp cw prompt =>
      let s2 : TtsSettings :=
        { exaggeration := ex.getD settings.exaggeration
          temperature := tp.getD settings.temperature
          cfg_weight := cw.getD settings.cfg_weight
          audio_prompt_base64 := prompt.getD settings.audio_prompt_base64 }
      ([SessionAction.emit (OutEvent.status "Settings updated")],
       Except.ok (history, s2))
  | InEvent.text t syn =>
      let h2 := history ++ [⟨"user", t⟩]
      let a1 := [SessionAction.appendUser t]
      match gw.chat h2 with
      | Except.error e => (a1, Except.error e)
      | Except.ok response_text =>
          let h3 := h2 ++ [⟨"assistant", response_text⟩]
          let a2 := a1 ++ [SessionAction.appendAssistant response_text,
                           SessionAction.emit (OutEvent.response response_text)]
          if syn then
            match gw.synth response_text settings with
            | Except.error e => (a2, Except.error e)
            | Except.ok audio_out =>
                (a2 ++ [SessionAction.emit (OutEvent.audioOut audio_out)],
                 Except.ok (h3, settings))
          else (a2, Except.ok (h3, settings))
  | InEvent.other => ([], Except.ok (history, settings))

/-- How the `while True` message loop ends: the inbound events ran out with
    the connection still open, or an uncaught exception terminated it. -/
inductive LoopEnd : Type
  | allConsumed (history : List ChatMessage) (settings : TtsSettings)
  | crashed (msg : String)
deriving DecidableEq

/-- The `websocket_voice` message loop (server.py 504-587) over a sequence
    of inbound events: only `WebSocketDisconnect` is caught, so a gateway
    exception ends the loop and the remaining events are never handled. -/
def relayLoop (gw : Gateways) :
    List InEvent → List ChatMessage → TtsSettings → List SessionAction × LoopEnd
  | [], history, settings => ([], LoopEnd.allConsumed history settings)
  | ev :: rest, history, settings =>
      match handleEvent gw ev history settings with
      | (acts, Except.error msg) => (acts, LoopEnd.crashed msg)
      | (acts, Except.ok (h2, s2)) =>
          let next := relayLoop gw rest h2 s2
          (acts ++ next.1, next.2)

theorem handleEvent_no_error_emit (gw : Gateways) (ev : InEvent)
    (history : List ChatMessage) (settings : TtsSettings) :
    ((handleEvent gw ev history settings).1.all (fun a => !a.isErrorEmit)) = true := by
  cases ev with
  | audio a l m =>
      rcases ht : gw.transcribe a l (m.getD "turbo") with e | t
      · simp [handleEvent, ht, SessionAction.isErrorEmit]
      · rcases hc : gw.chat (history ++ [⟨"user", t⟩]) with e | r
        · simp [handleEvent, ht, hc, SessionAction.isErrorEmit]
        · rcases hs : gw.synth r settings with e | audio_out
          · simp [handleEvent, ht, hc, hs, SessionAction.isErrorEmit]
          · simp [handleEvent, ht, hc, hs, SessionAction.isErrorEmit]
  | clear => simp [handleEvent, SessionAction.isErrorEmit]
  | settings ex tp cw prompt => simp [handleEvent, SessionAction.isErrorEmit]
  | text t syn =>
      rcases hc : gw.chat (history ++ [⟨"user", t⟩]) with e | r
      · simp [handleEvent, hc, SessionAction.isErrorEmit]
      · cases hsyn : syn with
        | false => simp [handleEvent, hc, hsyn, SessionAction.isErrorEmit]
        | true =>
            rcases hs : gw.synth r settings with e | audio_out
            · simp [handleEvent, hc, hsyn, hs, SessionAction.isErrorEmit]
            · simp [handleEvent, hc, hsyn, hs, SessionAction.isErrorEmit]
  | other => simp [handleEvent]

theorem relayLoop_no_error_emit (gw : Gateways) (events : List InEvent) :
    ∀ (history : List ChatMessage) (settings : TtsSettings),
      ((relayLoop gw events history settings).1.all
        (fun a => !a.isErrorEmit)) = true := by
  induction events with
  | nil => intro history settings; simp [relayLoop]
  | cons ev rest ih =>
      intro history settings
      have hev := handleEvent_no_error_emit gw ev history settings
      rcases he : handleEvent gw ev history settings with ⟨acts, out⟩
      rw [he] at hev
      cases out with
      | error msg => simpa [relayLoop, he] using hev
      | ok pr =>
          rcases pr with ⟨h2, s2⟩
          have := ih h2 s2
          simp only [relayLoop, he]
          simp [List.all_append, hev, this]

/-- Gateways whose transcription call raises. -/
def gwCrash : Gateways :=
  { transcribe := fun _ _ _ => Except.error "STT error: boom"
    chat := fun _ => Except.ok "fine"
    synth := fun _ _ => Except.ok "QUJD" }

/-- C1 counterexample: a transcription exception during an `audio` event is
    not caught: the message loop terminates (`crashed`) right after the
    "Transcribing..." status, no `error` event is emitted, and the next
    inbound event (`clear`) is never handled. -/
theorem C1_counterexample :
    relayLoop gwCrash [InEvent.audio "QUJD" none none, InEvent.clear]
        [] defaultTtsSettings =
      ([SessionAction.emit (OutEvent.status "Transcribing...")],
       LoopEnd.crashed "STT error: boom") := by
  rfl

/-- C1 amended: the `websocket_voice` loop catches only
    `WebSocketDisconnect`.  No run of the loop ever emits an `error` event,
    and whenever a gateway call raises while handling an event, the
    exception terminates the loop: the trace stops at the actions emitted
    so far and the remaining inbound events are never processed. -/
theorem C1_amended :
    (∀ (gw : Gateways) (events : List InEvent) (history : List ChatMessage)
       (settings : TtsSettings),
       ((relayLoop gw events history settings).1.all
         (fun a => !a.isErrorEmit)) = true)
    ∧ (∀ (gw : Gateways) (ev : InEvent) (rest : List InEvent)
         (history : List ChatMessage) (settings : TtsSettings) (msg : String),
         (handleEvent gw ev history settings).2 = Except.error msg →
         relayLoop gw (ev :: rest) history settings =
           ((handleEvent gw ev history settings).1, LoopEnd.crashed msg)) := by
  constructor
  · intro gw events history settings
    exact relayLoop_no_error_emit gw events history settings
  · intro gw ev rest history settings msg h
    rcases he : handleEvent gw ev history settings with ⟨acts, out⟩
    rw [he] at h
    simp only at h
    subst h
    simp [relayLoop, he]

/-- Witness for `C1_amended`, discharging the crash-propagation hypothesis
    at the concrete crashing gateways. -/
theorem C1_amended_witness :
    relayLoop gwCrash [InEvent.audio "QUJD" none none, InEvent.clear]
        [] defaultTtsSettings =
      ((handleEvent gwCrash (InEvent.audio "QUJD" none none) [] defaultTtsSettings).1,
       LoopEnd.crashed "STT error: boom") :=
  C1_amended.2 gwCrash (InEvent.audio "QUJD" none none) [InEvent.clear]
    [] defaultTtsSettings "STT error: boom" (by rfl)

/-- C5: when all three gateway calls succeed, the `audio` turn produces
    exactly, in order: status "Transcribing...", the transcription event,
    the user append, status "Thinking...", the assistant append, the
    response event, status "Synthesizing...", and the audio event; the
    session history ends with the user and assistant messages appended. -/
theorem C5_audio_turn_order (gw : Gateways) (history : List ChatMessage)
    (settings : TtsSettings) (audio_b64 : String) (language : Option String)
    (mdl : Option String) (t r a : String)
    (h1 : gw.transcribe audio_b64 language (mdl.getD "turbo") = Except.ok t)
    (h2 : gw.chat (history ++ [⟨"user", t⟩]) = Except.ok r)
    (h3 : gw.synth r settings = Except.ok a) :
    handleEvent gw (InEvent.audio audio_b64 language mdl) history settings =
      ([SessionAction.emit (OutEvent.status "Transcribing..."),
        SessionAction.emit (OutEvent.transcription t),
        SessionAction.appendUser t,
        SessionAction.emit (OutEvent.status "Thinking..."),
        SessionAction.appendAssistant r,
        SessionAction.emit (OutEvent.response r),
        SessionAction.emit (OutEvent.status "Synthesizing..."),
        SessionAction.emit (OutEvent.audioOut a)],
       Except.ok (history ++ [⟨"user", t⟩, ⟨"assistant", r⟩], settings)) := by
  simp [handleEvent, h1, h2, h3]

/-- Gateways where every call succeeds. -/
def gwOk : Gateways :=
  { transcribe := fun _ _ _ => Except.ok "hello there"
    chat := fun _ => Except.ok "hi back"
    synth := fun _ _ => Except.ok "QUJD" }

/-- Witness for `C5_audio_turn_order` at concrete gateways. -/
theorem C5_audio_turn_order_witness :
    handleEvent gwOk (InEvent.audio "QUJD" none none) [] defaultTtsSettings =
      ([SessionAction.emit (OutEvent.status "Transcribing..."),
        SessionAction.emit (OutEvent.transcription "hello there"),
        SessionAction.appendUser "hello there",
        SessionAction.emit (OutEvent.status "Thinking..."),
        SessionAction.appendAssistant "hi back",
        SessionAction.emit (OutEvent.response "hi back"),
        SessionAction.emit (OutEvent.status "Synthesizing..."),
        SessionAction.emit (OutEvent.audioOut "QUJD")],
       Except.ok (([] : List ChatMessage) ++ [⟨"user", "hello there"⟩, ⟨"assistant", "hi back"⟩],
         defaultTtsSettings)) :=
  C5_audio_turn_order gwOk [] defaultTtsSettings "QUJD" none none
    "hello there" "hi back" "QUJD" (by rfl) (by rfl) (by rfl)

-- ===================== Configuration loading (config.py) =====================

/-- The default provider registry built by `LLMConfig.__post_init__`
    (config.py 41-80), with api keys read from the environment. -/
def defaultProviders (env : String → Option String) : List (String × LLMProvider) :=
  [("openrouter",
    { api_key := (env "OPENROUTER_API_KEY").getD ""
      base_url := "https://openrouter.ai/api/v1"
      models := ["cognitivecomputations/dolphin-mistral-24b-venice-edition:free",
                 "anthropic/claude-sonnet-4-20250514", "openai/gpt-4o",
                 "google/gemini-pro", "meta-llama/llama-3-70b-instruct"] }),
   ("ollama",
    { api_key := ""
      base_url := "http://localhost:11434"
      models := ["llama3", "mistral", "codellama", "deepseek-coder"] }),
   ("openai",
    { api_key := (env "OPENAI_API_KEY").getD ""
      base_url := "https://api.openai.com/v1"
      models := ["gpt-4o", "gpt-4-turbo", "gpt-3.5-turbo"] }),
   ("anthropic",
    { api_key := (env "ANTHROPIC_API_KEY").getD ""
      base_url := "https://api.anthropic.com/v1"
      models := ["claude-sonnet-4-20250514", "claude-3-opus-20240229",
                 "claude-3-haiku-20240307"] }),
   ("groq",
    { api_key := (env "GROQ_API_KEY").getD ""
      base_url := "https://api.groq.com/openai/v1"
      models := ["llama-3.1-70b-versatile", "mixtral-8x7b-32768"] }),
   ("local",
    { api_key := ""
      base_url := "http://localhost:8080"
      models := ["local-model"] })]

/-- `Config()` as constructed before any file is read (config.py 16-87). -/
def defaultConfig (env : String → Option String) : Config :=
  { stt := { endpoint_id := "rxfzl47istu4i2", api_key := "" }
    tts := { endpoint_id := "8bj9tg60e7nw6y", api_key := "" }
    llm :=
      { active_provider := "openrouter"
        active_model := "cognitivecomputations/dolphin-mistral-24b-venice-edition:free"
        providers := defaultProviders env } }

/-- The `stt`/`tts` section of the persisted config file (keys optional). -/
structure FileEndpoint where
  endpoint_id : Option String
  api_key : Option String
deriving DecidableEq

/-- One provider entry of the persisted file. -/
structure FileProvider where
  api_key : Option String
  base_url : Option String
  models : Option (List String)
deriving DecidableEq

/-- The `llm` section of the persisted file. -/
structure FileLLM where
  active_provider : Option String
  active_model : Option String
  providers : Option (List (String × FileProvider))
deriving DecidableEq

/-- The persisted config file (config.py 95-128); a section is `none` when
    its key is absent. -/
structure FileCfg where
  stt : Option FileEndpoint
  tts : Option FileEndpoint
  llm : Option FileLLM
deriving DecidableEq

/-- The per-provider merge of the file into the registry (config.py
    116-128): a known provider gets `api_key` overwritten with
    `pdata.get("api_key", "")` unconditionally, `base_url`/`models` only
    when the file value is truthy; an unknown provider is appended. -/
def mergeFileProvider (reg : List (String × LLMProvider)) (name : String)
    (pd : FileProvider) : List (String × LLMProvider) :=
  match alistGet reg name with
  | some p =>
      alistSet reg name
        { api_key := pd.api_key.getD ""
          base_url :=
            match pd.base_url with
            | some b => if b ≠ "" then b else p.base_url
            | none => p.base_url
          models :=
            match pd.models with
            | some ms => if ms ≠ [] then ms else p.models
            | none => p.models }
  | none =>
      reg ++ [(name,
        { api_key := pd.api_key.getD ""
          base_url := pd.base_url.getD ""
          models := pd.models.getD [] })]

/-- Application of the file's `llm` section (config.py 111-128). -/
def applyFileLLM (llm : LLMConfig) (fd : FileLLM) : LLMConfig :=
  { active_provider := fd.active_provider.getD "openrouter"
    active_model := fd.active_model.getD ""
    providers :=
      match fd.providers with
      | none => llm.providers
      | some ps => ps.foldl (fun reg pr => mergeFileProvider reg pr.1 pr.2) llm.providers }

/-- Application of the whole persisted file (config.py 100-128). -/
def applyFile (c : Config) (d : FileCfg) : Config :=
  { stt :=
      match d.stt with
      | none => c.stt
      | some fe => { endpoint_id := fe.endpoint_id.getD "", api_key := fe.api_key.getD "" }
    tts :=
      match d.tts with
      | none => c.tts
      | some fe => { endpoint_id := fe.endpoint_id.getD "", api_key := fe.api_key.getD "" }
    llm :=
      match d.llm with
      | none => c.llm
      | some fl => applyFileLLM c.llm fl }

/-- The environment-variable overrides applied after the file (config.py
    132-146), in source order: STT endpoint, STT key, the shared
    `RUNPOD_API_KEY` filling only still-empty keys, TTS endpoint, TTS key. -/
def envOverride (env : String → Option String) (stt : STTConfig) (tts : TTSConfig) :
    STTConfig × TTSConfig :=
  let stt1 := if pyTruthyOptStr (env "RUNPOD_STT_ENDPOINT") then
      { stt with endpoint_id := (env "RUNPOD_STT_ENDPOINT").getD "" } else stt
  let stt2 := if pyTruthyOptStr (env "RUNPOD_STT_API_KEY") then
      { stt1 with api_key := (env "RUNPOD_STT_API_KEY").getD "" } else stt1
  let pair :=
    if pyTruthyOptStr (env "RUNPOD_API_KEY") then
      (if stt2.api_key = "" then
        { stt2 with api_key := (env "RUNPOD_API_KEY").getD "" } else stt2,
       if tts.api_key = "" then
        { tts with api_key := (env "RUNPOD_API_KEY").getD "" } else tts)
    else (stt2, tts)
  let tts1 := if pyTruthyOptStr (env "RUNPOD_TTS_ENDPOINT") then
      { pair.2 with endpoint_id := (env "RUNPOD_TTS_ENDPOINT").getD "" } else pair.2
  let tts2 := if pyTruthyOptStr (env "RUNPOD_TTS_API_KEY") then
      { tts1 with api_key := (env "RUNPOD_TTS_API_KEY").getD "" } else tts1
  (pair.1, tts2)

/-- `load_config` (config.py 90-148): defaults (with environment-derived
    provider keys), then the persisted file when present and parseable,
    then the STT/TTS environment overrides.  The environment and the file
    are passed explicitly; `none` stands for a missing or unparseable
    file. -/
def load_config (env : String → Option String) (file : Option FileCfg) : Config :=
  let c0 := defaultConfig env
  let c1 :=
    match file with
    | none => c0
    | some d => applyFile c0 d
  let et := envOverride env c1.stt c1.tts
  { stt := et.1, tts := et.2, llm := c1.llm }

/-- An environment where only `OPENROUTER_API_KEY` is set. -/
def envC8 : String → Option String :=
  fun k => if k = "OPENROUTER_API_KEY" then some "env-key" else none

/-- A persisted file that only carries an openrouter entry with a key. -/
def fileWithOpenrouterKey (k : String) : FileCfg :=
  { stt := none
    tts := none
    llm := some
      { active_provider := none
        active_model := none
        providers := some
          [("openrouter", { api_key := some k, base_url := none, models := none })] } }

/-- C8 counterexample: with `OPENROUTER_API_KEY=env-key` in the environment
    and an openrouter entry `api_key=file-key` in the persisted file, the
    loaded configuration carries the file's key, not the environment's. -/
theorem C8_counterexample :
    (alistGet (load_config envC8 (some (fileWithOpenrouterKey "file-key"))).llm.providers
        "openrouter").map (fun p => p.api_key) = some "file-key"
    ∧ (alistGet (load_config envC8 (some (fileWithOpenrouterKey "file-key"))).llm.providers
        "openrouter").map (fun p => p.api_key) ≠ some "env-key" := by
  refine ⟨rfl, ?_⟩
  decide


theorem envOverride_stt_endpoint (env : String → Option String)
    (stt : STTConfig) (tts : TTSConfig) (s : String)
    (h : env "RUNPOD_STT_ENDPOINT" = some s) (hs : s ≠ "") :
    (envOverride env stt tts).1.endpoint_id = s := by
  simp only [envOverride]
  rw [h]
  simp only [pyTruthyOptStr]
  split_ifs <;> simp_all

theorem envOverride_stt_api_key (env : String → Option String)
    (stt : STTConfig) (tts : TTSConfig) (s : String)
    (h : env "RUNPOD_STT_API_KEY" = some s) (hs : s ≠ "") :
    (envOverride env stt tts).1.api_key = s := by
  simp only [envOverride]
  rw [h]
  simp only [pyTruthyOptStr]
  split_ifs <;> simp_all

theorem envOverride_tts_endpoint (env : String → Option String)
    (stt : STTConfig) (tts : TTSConfig) (s : String)
    (h : env "RUNPOD_TTS_ENDPOINT" = some s) (hs : s ≠ "") :
    (envOverride env stt tts).2.endpoint_id = s := by
  simp only [envOverride]
  rw [h]
  simp only [pyTruthyOptStr]
  split_ifs <;> simp_all

theorem envOverride_tts_api_key (env : String → Option String)
    (stt : STTConfig) (tts : TTSConfig) (s : String)
    (h : env "RUNPOD_TTS_API_KEY" = some s) (hs : s ≠ "") :
    (envOverride env stt tts).2.api_key = s := by
  simp only [envOverride]
  rw [h]
  simp only [pyTruthyOptStr]
  split_ifs <;> simp_all

/-- C8 amended: environment variables override the persisted file only for
    the STT/TTS endpoint ids and api keys; for LLM providers the precedence
    is reversed — `load_config` reads the environment into the defaults
    first and then applies the file on top, so a file entry for a provider
    overwrites the environment-derived `api_key` (shown for openrouter with
    an arbitrary environment and file key). -/
theorem C8_amended :
    (∀ (env : String → Option String) (file : Option FileCfg) (s : String),
        env "RUNPOD_STT_ENDPOINT" = some s → s ≠ "" →
        (load_config env file).stt.endpoint_id = s)
    ∧ (∀ (env : String → Option String) (file : Option FileCfg) (s : String),
        env "RUNPOD_STT_API_KEY" = some s → s ≠ "" →
        (load_config env file).stt.api_key = s)
    ∧ (∀ (env : String → Option String) (file : Option FileCfg) (s : String),
        env "RUNPOD_TTS_ENDPOINT" = some s → s ≠ "" →
        (load_config env file).tts.endpoint_id = s)
    ∧ (∀ (env : String → Option String) (file : Option FileCfg) (s : String),
        env "RUNPOD_TTS_API_KEY" = some s → s ≠ "" →
        (load_config env file).tts.api_key = s)
    ∧ (∀ (env : String → Option String) (fkey : String),
        (alistGet (load_config env (some (fileWithOpenrouterKey fkey))).llm.providers
            "openrouter").map (fun p => p.api_key) = some fkey) := by
  refine ⟨?_, ?_, ?_, ?_, ?_⟩
  · intro env file s h hs
    exact envOverride_stt_endpoint env _ _ s h hs
  · intro env file s h hs
    exact envOverride_stt_api_key env _ _ s h hs
  · intro env file s h hs
    exact envOverride_tts_endpoint env _ _ s h hs
  · intro env file s h hs
    exact envOverride_tts_api_key env _ _ s h hs
  · intro env fkey
    rfl

/-- An environment carrying the two RunPod api keys. -/
def envW8 : String → Option String :=
  fun k =>
    if k = "RUNPOD_STT_API_KEY" then some "sk1"
    else if k = "RUNPOD_TTS_API_KEY" then some "tk1"
    else none

/-- Witness for `C8_amended` at a concrete environment and file. -/
theorem C8_amended_witness :
    (load_config envW8 none).stt.api_key = "sk1"
    ∧ (load_config envW8 none).tts.api_key = "tk1"
    ∧ (alistGet (load_config envW8 (some (fileWithOpenrouterKey "fk"))).llm.providers
        "openrouter").map (fun p => p.api_key) = some "fk" :=
  ⟨C8_amended.2.1 envW8 none "sk1" (by rfl) (by decide),
   C8_amended.2.2.2.1 envW8 none "tk1" (by rfl) (by decide),
   C8_amended.2.2.2.2 envW8 "fk"⟩

-- ===================== Provider catalogue (GET /llm/providers) =====================

/-- One entry of the catalogue returned by `GET /llm/providers`. -/
structure ProviderInfo where
  configured : Bool
  base_url : String
  models : List String
deriving DecidableEq

/-- The `configured` computation of `api_get_providers` (server.py 363):
    `bool(p.api_key) if name != "ollama" else True`. -/
def providerInfoOf (name : String) (p : LLMProvider) : ProviderInfo :=
  { configured := if name ≠ "ollama" then p.api_key ≠ "" else true
    base_url := p.base_url
    models := p.models }

/-- The catalogue returned by `GET /llm/providers` (server.py 355-369). -/
structure ProvidersCatalogue where
  active_provider : String
  active_model : String
  providers : List (String × ProviderInfo)
deriving DecidableEq

/-- `api_get_providers` (server.py 355-369). -/
def api_get_providers (cfg : Config) : ProvidersCatalogue :=
  { active_provider := cfg.llm.active_provider
    active_model := cfg.llm.active_model
    providers := cfg.llm.providers.map (fun pr => (pr.1, providerInfoOf pr.1 pr.2)) }

theorem alistGet_map_providerInfo :
    ∀ (l : List (String × LLMProvider)) (key : String),
      alistGet (l.map (fun pr => (pr.1, providerInfoOf pr.1 pr.2))) key =
        (alistGet l key).map (providerInfoOf key) := by
  intro l
  induction l with
  | nil => intro key; rfl
  | cons hd tl ih =>
      intro key
      by_cases hk : hd.1 = key
      · simp [alistGet, hk]
      · simp [alistGet, hk, ih]

/-- C9 counterexample: in the default configuration the provider "local"
    is a credential-free backend (its default api key is empty and its
    base url is a localhost address), yet the catalogue reports it as
    `configured = false` — only "ollama" is exempted from the key check. -/
theorem C9_counterexample :
    (alistGet (api_get_providers (load_config (fun _ => none) none)).providers
        "local").map (fun i => i.configured) = some false
    ∧ (alistGet (load_config (fun _ => none) none).llm.providers "local").map
        (fun p => p.api_key) = some ""
    ∧ (alistGet (api_get_providers (load_config (fun _ => none) none)).providers
        "ollama").map (fun i => i.configured) = some true := by
  refine ⟨rfl, rfl, rfl⟩

/-- C9 amended: for every provider in the registry the catalogue reports
    `configured = (api_key non-empty)`, except the provider literally named
    "ollama", which is always reported configured; the credential-free
    "local" provider gets no such exemption and is reported unconfigured
    whenever its api key is empty. -/
theorem C9_amended (cfg : Config) (name : String) (p : LLMProvider)
    (h : alistGet cfg.llm.providers name = some p) :
    alistGet (api_get_providers cfg).providers name =
      some { configured := if name ≠ "ollama" then p.api_key ≠ "" else true
             base_url := p.base_url
             models := p.models } := by
  show alistGet (cfg.llm.providers.map (fun pr => (pr.1, providerInfoOf pr.1 pr.2))) name = _
  rw [alistGet_map_providerInfo, h]
  rfl

/-- Witness for `C9_amended` at the default configuration and "local". -/
theorem C9_amended_witness :
    alistGet (api_get_providers (load_config (fun _ => none) none)).providers "local" =
      some { configured := if ("local" : String) ≠ "ollama" then ("" : String) ≠ "" else true
             base_url := "http://localhost:8080"
             models := ["local-model"] } :=
  C9_amended (load_config (fun _ => none) none) "local"
    { api_key := "", base_url := "http://localhost:8080", models := ["local-model"] }
    (by rfl)
